import Mathlib

/-!
Verification of the routing / role / command-menu logic of `src/bot/handlers.py`
(telestories bot).  The Python handlers are shallowly embedded: pure
computations (role classification, command-list construction, help-text
construction) become Lean functions, and the effectful handlers become
functions returning a trace (`List Effect`) of the externally visible
operations they perform, parameterised by oracles for the behaviour of the
external collaborators (storage raising, transport accepting the push).
-/

namespace Telestories

/-- Translation collaborator `t(locale, key, *args)` from `utils.i18n`:
locale, key and the list of (already-rendered) named arguments, in the
order they appear at the call site. -/
abbrev Tr := String → String → List String → String

/-- Python `x or default` on an optional string: `None` and `""` are falsy. -/
def pyOrStr (s : Option String) (d : String) : String :=
  match s with
  | none => d
  | some v => if v = "" then d else v

/-- `message.from_user` (aiogram `User`): the fields the handlers read. -/
structure User where
  id : Int
  username : Option String
  language_code : Option String
  is_bot : Bool
  is_premium : Option Bool
  deriving Repr, DecidableEq

/-- `message.chat` (aiogram `Chat`): the fields the start handler reads. -/
structure ChatInfo where
  id : Int
  type : String
  title : Option String
  username : Option String
  first_name : Option String
  last_name : Option String
  is_forum : Option Bool
  created_at : Option Nat
  deriving Repr, DecidableEq

/-- Inbound message: optional sender, chat, and whether `message.bot`
(the transport handle) is attached. -/
structure Message where
  from_user : Option User
  chat : ChatInfo
  hasBot : Bool
  deriving Repr, DecidableEq

/-- `db.schemas.Chat` payload as built at `handlers.py:65`-`74`. -/
structure ChatSchema where
  id : Int
  type : String
  title : Option String
  username : Option String
  first_name : Option String
  last_name : Option String
  is_forum : Bool
  created_at : Nat
  deriving Repr, DecidableEq

/-- `db.schemas.UserCreate` payload as built at `handlers.py:79`-`84`. -/
structure UserCreate where
  chat_id : Int
  username : String
  is_bot : Bool
  is_premium : Bool
  deriving Repr, DecidableEq

/-- Role snapshot derived per message (spec §3). -/
structure RoleSnapshot where
  is_admin : Bool
  is_premium : Bool
  locale : String
  is_bot : Bool
  deriving Repr, DecidableEq

/-- Role classification, exactly lines 56-59 of `handlers.py`:
`locale = language_code or "en"`, `is_admin = id == BOT_ADMIN_ID`,
`is_premium = is_premium or False`. -/
def classify (u : User) (adminId : Int) : RoleSnapshot :=
  { is_admin := u.id == adminId
    is_premium := u.is_premium.getD false
    locale := pyOrStr u.language_code "en"
    is_bot := u.is_bot }

/-- aiogram `BotCommand`. -/
structure BotCommand where
  command : String
  description : String
  deriving Repr, DecidableEq

/-- aiogram command scope: per-chat, or the global/default scopes. -/
inductive Scope where
  | chat (chat_id : Int)
  | allPrivateChats
  | default
  deriving Repr, DecidableEq

/-- The command list built inside `update_user_commands`
(`handlers.py:190`-`222`), with the same incremental `commands += [...]`
structure as the source. -/
def update_commands_list (t : Tr) (locale : String)
    (is_admin is_premium : Bool) : List BotCommand :=
  let commands : List BotCommand :=
    [ { command := "start", description := t locale "cmd.start" [] },
      { command := "help", description := t locale "cmd.help" [] },
      { command := "queue", description := t locale "cmd.queue" [] },
      { command := "profile", description := t locale "cmd.profile" [] },
      { command := "bugs", description := t locale "cmd.bugs" [] } ]
  let commands :=
    if is_premium then
      commands ++
        [ { command := "monitor", description := t locale "cmd.monitor" [] },
          { command := "unmonitor", description := t locale "cmd.unmonitor" [] } ]
    else commands
  let commands :=
    if is_admin then
      commands ++
        [ { command := "users", description := t locale "cmd.users" [] },
          { command := "history", description := t locale "cmd.history" [] },
          { command := "block", description := t locale "cmd.block" [] },
          { command := "unblock", description := t locale "cmd.unblock" [] },
          { command := "blocklist", description := t locale "cmd.blocklist" [] },
          { command := "status", description := t locale "cmd.status" [] },
          { command := "restart", description := t locale "cmd.restart" [] },
          { command := "bugreport", description := t locale "cmd.listbugs" [] },
          { command := "bugs", description := t locale "cmd.bugs" [] },
          { command := "reset_auth", description := "Reset Telegram auth code" },
          { command := "flush", description := t locale "cmd.flush" [] },
          { command := "welcome", description := t locale "cmd.welcome" [] } ]
    else commands
  commands

/-- Spec-side base block (spec §4.3): start, help, queue, profile, bugs. -/
def specBaseCommands (t : Tr) (locale : String) : List BotCommand :=
  [ { command := "start", description := t locale "cmd.start" [] },
    { command := "help", description := t locale "cmd.help" [] },
    { command := "queue", description := t locale "cmd.queue" [] },
    { command := "profile", description := t locale "cmd.profile" [] },
    { command := "bugs", description := t locale "cmd.bugs" [] } ]

/-- Spec-side premium block (spec §4.3): monitor, unmonitor. -/
def specPremiumCommands (t : Tr) (locale : String) : List BotCommand :=
  [ { command := "monitor", description := t locale "cmd.monitor" [] },
    { command := "unmonitor", description := t locale "cmd.unmonitor" [] } ]

/-- Spec-side admin block (spec §4.3) in the declared order. -/
def specAdminCommands (t : Tr) (locale : String) : List BotCommand :=
  [ { command := "users", description := t locale "cmd.users" [] },
    { command := "history", description := t locale "cmd.history" [] },
    { command := "block", description := t locale "cmd.block" [] },
    { command := "unblock", description := t locale "cmd.unblock" [] },
    { command := "blocklist", description := t locale "cmd.blocklist" [] },
    { command := "status", description := t locale "cmd.status" [] },
    { command := "restart", description := t locale "cmd.restart" [] },
    { command := "bugreport", description := t locale "cmd.listbugs" [] },
    { command := "bugs", description := t locale "cmd.bugs" [] },
    { command := "reset_auth", description := "Reset Telegram auth code" },
    { command := "flush", description := t locale "cmd.flush" [] },
    { command := "welcome", description := t locale "cmd.welcome" [] } ]

/-- Externally visible operations a handler performs, in program order. -/
inductive Effect where
  | getSession
  | tryCreateChat (data : ChatSchema)
  | saveUser (data : UserCreate)
  | closeSession
  | logDebug (s : String)
  | logException (s : String)
  | logError (s : String)
  | answer (text : String) (parseMode : String) (disableWebPagePreview : Option Bool)
  | setMyCommands (commands : List BotCommand) (scope : Scope)
  deriving Repr, DecidableEq

/-- Oracle for the storage collaborator: whether `try_create_chat` raises,
and whether `save_user` raises (reached only when the former did not). -/
structure StorageOutcome where
  chatCreateRaises : Bool
  saveUserRaises : Bool
  deriving Repr, DecidableEq

/-- Effects of the `try:` body at `handlers.py:63`-`87`, paired with whether
the body raised.  On a raise, execution stops at the raising call. -/
def startPersistBody (st : StorageOutcome) (chatData : ChatSchema)
    (userData : UserCreate) : List Effect × Bool :=
  if st.chatCreateRaises then
    ([Effect.tryCreateChat chatData], true)
  else if st.saveUserRaises then
    ([Effect.tryCreateChat chatData, Effect.saveUser userData], true)
  else
    ([Effect.tryCreateChat chatData, Effect.saveUser userData,
      Effect.logDebug "User started the bot"], false)

/-- The `session = get_session()` / `try`/`except`/`finally` block of the
start handler (`handlers.py:61`-`91`): a raise in the body is caught and
logged (`LOG.exception`, line 89), and `session.close()` runs in `finally`. -/
def sessionBlock (st : StorageOutcome) (chatData : ChatSchema)
    (userData : UserCreate) : List Effect :=
  let body := startPersistBody st chatData userData
  Effect.getSession ::
    (body.1 ++
      (if body.2 then [Effect.logException "Failed to save user on /start"] else []) ++
      [Effect.closeSession])

/-- `update_user_commands` (`handlers.py:175`-`234`): returns early when the
message lacks a sender or a bot handle; otherwise logs, pushes the computed
list scoped to `message.chat.id`, and logs the transport's verdict.
`pushOk` is the boolean result of `bot.set_my_commands`. -/
def update_user_commands (t : Tr) (pushOk : Bool) (message : Message)
    (is_admin is_premium : Bool) : List Effect :=
  match message.from_user with
  | none => []
  | some u =>
    if message.hasBot = false then []
    else
      let locale := pyOrStr u.language_code "en"
      [Effect.logDebug "Updating commands for user"] ++
      (if is_premium then [Effect.logDebug "Adding premium commands"] else []) ++
      (if is_admin then [Effect.logDebug "Adding admin commands"] else []) ++
      [Effect.logDebug "Updating commands for user",
       Effect.setMyCommands (update_commands_list t locale is_admin is_premium)
         (Scope.chat message.chat.id)] ++
      (if pushOk then [Effect.logDebug "Commands updated for user"]
       else [Effect.logError "Failed to update commands for user"])

/-- The `ChatSchema` payload built at `handlers.py:65`-`74`; `getattr` with a
default and Python `or` become `Option.getD`. -/
def chatDataOf (message : Message) (now : Nat) : ChatSchema :=
  { id := message.chat.id
    type := message.chat.type
    title := message.chat.title
    username := message.chat.username
    first_name := message.chat.first_name
    last_name := message.chat.last_name
    is_forum := message.chat.is_forum.getD false
    created_at := message.chat.created_at.getD now }

/-- The `UserCreate` payload built at `handlers.py:79`-`84`: keyed by the
sender's own id, `username or ""`. -/
def userDataOf (u : User) : UserCreate :=
  { chat_id := u.id
    username := pyOrStr u.username ""
    is_bot := u.is_bot
    is_premium := u.is_premium.getD false }

/-- `command_start_handler` (`handlers.py:50`-`102`).  `now` stands for
`datetime.datetime.now()`. -/
def command_start_handler (t : Tr) (adminId : Int) (now : Nat)
    (st : StorageOutcome) (pushOk : Bool) (message : Message) : List Effect :=
  match message.from_user with
  | none => []
  | some u =>
    let role := classify u adminId
    sessionBlock st (chatDataOf message now) (userDataOf u) ++
      [Effect.answer (t role.locale "start.instructions" []) "Markdown" (some true)] ++
      update_user_commands t pushOk message role.is_admin role.is_premium

/-- The help text built by `command_help_handler` (`handlers.py:115`-`147`),
with the same incremental `+=` structure as the source. -/
def help_text (t : Tr) (locale : String) (is_admin is_premium : Bool) : String :=
  let ht := t locale "help.header" [] ++ "\n\n"
  let ht := ht ++ t locale "help.general"
    [t locale "cmd.start" [], t locale "cmd.help" [], t locale "cmd.queue" [],
     t locale "cmd.profile" [], t locale "cmd.bugs" []]
  let ht := if is_premium then
      ht ++ "\n" ++ t locale "help.premium"
        [t locale "cmd.monitor" [], t locale "cmd.unmonitor" []]
    else ht
  let ht := if is_admin then
      ht ++ "\n" ++ t locale "help.admin"
        [t locale "cmd.users" [], t locale "cmd.history" [], t locale "cmd.block" [],
         t locale "cmd.unblock" [], t locale "cmd.blocklist" [],
         t locale "cmd.restart" [], t locale "cmd.status" [],
         t locale "cmd.listbugs" []]
    else ht
  ht

/-- `command_help_handler` (`handlers.py:105`-`149`): a single reply with the
role-dependent help text. -/
def command_help_handler (t : Tr) (adminId : Int) (message : Message) : List Effect :=
  match message.from_user with
  | none => []
  | some u =>
    let role := classify u adminId
    [Effect.answer (help_text t role.locale role.is_admin role.is_premium)
      "Markdown" none]

/-- Capability filters attached to the routers (`bot.filters`). -/
inductive FilterKind where
  | isAdmin
  | isPremium
  deriving Repr, DecidableEq

/-- Middleware attached to a router. -/
inductive MiddlewareKind where
  | longOperation
  deriving Repr, DecidableEq

/-- Static router configuration: name, the message filter installed with
`router.message.filter(...)` (none = ungated), and installed middleware. -/
structure RouterCfg where
  name : String
  messageFilter : Option FilterKind
  middleware : List MiddlewareKind
  deriving Repr, DecidableEq

/-- `root_router` with its `LongOperation` middleware (`handlers.py:35`,`40`). -/
def root_router : RouterCfg :=
  { name := "root", messageFilter := none, middleware := [MiddlewareKind.longOperation] }

/-- `admin_router` gated by `IsAdmin()` (`handlers.py:36`,`43`). -/
def admin_router : RouterCfg :=
  { name := "admin", messageFilter := some FilterKind.isAdmin, middleware := [] }

/-- `premium_router` gated by `IsPremium()` (`handlers.py:37`,`44`). -/
def premium_router : RouterCfg :=
  { name := "premium", messageFilter := some FilterKind.isPremium, middleware := [] }

/-- `get_routers` (`handlers.py:237`-`239`). -/
def get_routers : List RouterCfg :=
  [root_router, admin_router, premium_router]

/-- C1: for every role snapshot the reconciler's list is the fixed base
block, then the premium block exactly when premium, then the admin block
exactly when admin, in the declared orders; for an admin role the command
`bugs` occurs exactly twice. -/
theorem menu_list_blocks (t : Tr) (locale : String) (a p : Bool) :
    update_commands_list t locale a p =
      specBaseCommands t locale ++
        (if p then specPremiumCommands t locale else []) ++
        (if a then specAdminCommands t locale else []) ∧
    (update_commands_list t locale true p).countP
      (fun c => c.command == "bugs") = 2 := by
  constructor
  · cases a <;> cases p <;> rfl
  · cases p <;> rfl

/-- C3: role classification is pure and total: `is_admin` iff the sender id
equals the configured admin id; `is_premium` is the sender's premium flag
when present, else false; `locale` is the language tag when present and
non-empty, else "en". -/
theorem classify_spec (u : User) (adminId : Int) :
    ((classify u adminId).is_admin = true ↔ u.id = adminId) ∧
    ((classify u adminId).is_premium =
      match u.is_premium with
      | some b => b
      | none => false) ∧
    (∀ s, u.language_code = some s → s ≠ "" → (classify u adminId).locale = s) ∧
    ((u.language_code = none ∨ u.language_code = some "") →
      (classify u adminId).locale = "en") := by
  refine ⟨?_, ?_, ?_, ?_⟩
  · simp [classify]
  · cases h : u.is_premium <;> simp [classify, h]
  · intro s hs hne
    simp [classify, pyOrStr, hs, hne]
  · rintro (h | h) <;> simp [classify, pyOrStr, h]

/-- Concrete sender used in witnesses: premium admin with Spanish locale. -/
def uEsAdmin : User :=
  { id := 7, username := some "ana", language_code := some "es",
    is_bot := false, is_premium := some true }

/-- Witness for C3 at a concrete sender. -/
theorem classify_spec_witness :
    (classify uEsAdmin 7).locale = "es" ∧ (classify uEsAdmin 7).is_admin = true := by
  exact ⟨(classify_spec uEsAdmin 7).2.2.1 "es" rfl (by decide),
    ((classify_spec uEsAdmin 7).1).mpr rfl⟩

/-- C9: the routers are exposed in the fixed order root, admin, premium,
with root ungated, admin gated by the admin filter and premium gated by the
premium filter. -/
theorem routers_order_and_gating :
    get_routers = [root_router, admin_router, premium_router] ∧
    root_router.messageFilter = none ∧
    admin_router.messageFilter = some FilterKind.isAdmin ∧
    premium_router.messageFilter = some FilterKind.isPremium ∧
    get_routers.map RouterCfg.name = ["root", "admin", "premium"] :=
  ⟨rfl, rfl, rfl, rfl, rfl⟩

/-- Concrete translator used in witnesses: returns the lookup key. -/
def tKey : Tr := fun _ key _ => key

/-- Concrete chat used in witnesses. -/
def chatA : ChatInfo :=
  { id := 42, type := "private", title := none, username := none,
    first_name := some "Ana", last_name := none, is_forum := none,
    created_at := none }

/-- Message with a premium admin sender and a bot handle. -/
def msgA : Message := { from_user := some uEsAdmin, chat := chatA, hasBot := true }

/-- Message with no identifiable sender. -/
def msgNoSender : Message := { from_user := none, chat := chatA, hasBot := true }

/-- Message with a sender but no bot handle. -/
def msgNoBot : Message := { from_user := some uEsAdmin, chat := chatA, hasBot := false }

/-- Storage oracle where both persistence calls succeed. -/
def stOk : StorageOutcome := { chatCreateRaises := false, saveUserRaises := false }

/-- Storage oracle where the chat-create call raises. -/
def stChatFail : StorageOutcome := { chatCreateRaises := true, saveUserRaises := false }

/-- Persistence-related effects (session and storage operations). -/
def Effect.isPersist : Effect → Bool
  | Effect.getSession => true
  | Effect.tryCreateChat _ => true
  | Effect.saveUser _ => true
  | Effect.closeSession => true
  | _ => false

/-- Transport command-menu pushes. -/
def Effect.isPush : Effect → Bool
  | Effect.setMyCommands _ _ => true
  | _ => false

theorem sessionBlock_getLast_close (st : StorageOutcome) (cd : ChatSchema)
    (ud : UserCreate) :
    (sessionBlock st cd ud).getLast? = some Effect.closeSession := by
  cases hc : st.chatCreateRaises <;> cases hs : st.saveUserRaises <;>
    simp [sessionBlock, startPersistBody, hc, hs]

theorem sessionBlock_no_push (st : StorageOutcome) (cd : ChatSchema)
    (ud : UserCreate) :
    ∀ e ∈ sessionBlock st cd ud, e.isPush = false := by
  intro e he
  cases e <;> try rfl
  exfalso
  cases hc : st.chatCreateRaises <;> cases hs : st.saveUserRaises <;>
    simp [sessionBlock, startPersistBody, hc, hs] at he

theorem sessionBlock_logs_on_raise (st : StorageOutcome) (cd : ChatSchema)
    (ud : UserCreate)
    (h : st.chatCreateRaises = true ∨ st.saveUserRaises = true) :
    Effect.logException "Failed to save user on /start" ∈ sessionBlock st cd ud := by
  rcases h with h | h
  · simp [sessionBlock, startPersistBody, h]
  · cases hc : st.chatCreateRaises
    · simp [sessionBlock, startPersistBody, hc, h]
    · simp [sessionBlock, startPersistBody, hc]

theorem update_no_persist (t : Tr) (pushOk : Bool) (message : Message)
    (a p : Bool) :
    ∀ e ∈ update_user_commands t pushOk message a p, e.isPersist = false := by
  intro e he
  cases e <;> try rfl
  all_goals
    exfalso
  all_goals
    cases hfu : message.from_user with
    | none => simp [update_user_commands, hfu] at he
    | some u =>
      cases hb : message.hasBot <;> cases a <;> cases p <;> cases pushOk <;>
        simp [update_user_commands, hfu, hb] at he

theorem update_push_mem (t : Tr) (pushOk : Bool) (message : Message)
    (a p : Bool) (u : User) (hu : message.from_user = some u)
    (hb : message.hasBot = true) :
    Effect.setMyCommands (update_commands_list t (pyOrStr u.language_code "en") a p)
      (Scope.chat message.chat.id) ∈ update_user_commands t pushOk message a p := by
  cases a <;> cases p <;> cases pushOk <;>
    simp [update_user_commands, hu, hb]

/-- C8: a /start message with no identifiable sender is handled as a silent
no-op: no persistence, no reply, no menu update. -/
theorem start_no_sender_noop (t : Tr) (adminId : Int) (now : Nat)
    (st : StorageOutcome) (pushOk : Bool) (message : Message)
    (h : message.from_user = none) :
    command_start_handler t adminId now st pushOk message = [] := by
  simp [command_start_handler, h]

/-- Witness for C8 at a concrete sender-less message. -/
theorem start_no_sender_noop_witness :
    command_start_handler tKey 7 0 stOk true msgNoSender = [] :=
  start_no_sender_noop tKey 7 0 stOk true msgNoSender rfl

/-- C7: the identity-sync session block acquires the session first and
releases it exactly once, as its last action, on every exit path, including
the paths where chat-create or user-upsert raises. -/
theorem session_released_every_path (st : StorageOutcome)
    (chatData : ChatSchema) (userData : UserCreate) :
    (sessionBlock st chatData userData).head? = some Effect.getSession ∧
    (sessionBlock st chatData userData).getLast? = some Effect.closeSession ∧
    (sessionBlock st chatData userData).count Effect.closeSession = 1 := by
  cases hc : st.chatCreateRaises <;> cases hs : st.saveUserRaises <;>
    simp [sessionBlock, startPersistBody, hc, hs, List.count_cons, List.count_append]

/-- C10: when the message lacks a bot reference, the reconciler returns with
an empty trace (no push, no log), so after the welcome reply the start
handler's trace simply ends. -/
theorem menu_update_skipped_without_bot (t : Tr) (adminId : Int) (now : Nat)
    (st : StorageOutcome) (pushOk : Bool) (message : Message) (u : User)
    (a p : Bool) (hu : message.from_user = some u)
    (hb : message.hasBot = false) :
    update_user_commands t pushOk message a p = [] ∧
    command_start_handler t adminId now st pushOk message =
      sessionBlock st (chatDataOf message now) (userDataOf u) ++
        [Effect.answer (t (classify u adminId).locale "start.instructions" [])
          "Markdown" (some true)] := by
  constructor
  · simp [update_user_commands, hu, hb]
  · simp [command_start_handler, hu, update_user_commands, hb]

/-- Witness for C10 at a concrete bot-less message. -/
theorem menu_update_skipped_without_bot_witness :
    update_user_commands tKey true msgNoBot true true = [] ∧
    command_start_handler tKey 7 0 stOk true msgNoBot =
      sessionBlock stOk (chatDataOf msgNoBot 0) (userDataOf uEsAdmin) ++
        [Effect.answer (tKey (classify uEsAdmin 7).locale "start.instructions" [])
          "Markdown" (some true)] :=
  menu_update_skipped_without_bot tKey 7 0 stOk true msgNoBot uEsAdmin true true rfl rfl

/-- C6: every command-list push the reconciler emits is scoped to exactly
the chat of the inbound message (never a global/default scope); when sender
and bot handle are present the push does occur; and a rejected push ends the
(exception-free) trace with an error log. -/
theorem menu_push_scope_and_failure (t : Tr) (pushOk : Bool)
    (message : Message) (a p : Bool) (u : User)
    (hu : message.from_user = some u) :
    (∀ cmds sc,
      Effect.setMyCommands cmds sc ∈ update_user_commands t pushOk message a p →
        sc = Scope.chat message.chat.id) ∧
    (message.hasBot = true →
      Effect.setMyCommands
        (update_commands_list t (pyOrStr u.language_code "en") a p)
        (Scope.chat message.chat.id) ∈ update_user_commands t pushOk message a p) ∧
    (message.hasBot = true → pushOk = false →
      (update_user_commands t pushOk message a p).getLast? =
        some (Effect.logError "Failed to update commands for user")) := by
  refine ⟨?_, ?_, ?_⟩
  · intro cmds sc h
    cases hb : message.hasBot <;> cases a <;> cases p <;> cases pushOk <;>
      simp [update_user_commands, hu, hb] at h <;> tauto
  · intro hb
    cases a <;> cases p <;> cases pushOk <;>
      simp [update_user_commands, hu, hb]
  · intro hb hpo
    subst hpo
    cases a <;> cases p <;>
      simp [update_user_commands, hu, hb]

/-- Witness for C6 at a concrete message with a rejected push. -/
theorem menu_push_scope_and_failure_witness :
    (∀ cmds sc,
      Effect.setMyCommands cmds sc ∈ update_user_commands tKey false msgA true true →
        sc = Scope.chat msgA.chat.id) ∧
    (msgA.hasBot = true →
      Effect.setMyCommands
        (update_commands_list tKey (pyOrStr uEsAdmin.language_code "en") true true)
        (Scope.chat msgA.chat.id) ∈ update_user_commands tKey false msgA true true) ∧
    (msgA.hasBot = true → false = false →
      (update_user_commands tKey false msgA true true).getLast? =
        some (Effect.logError "Failed to update commands for user")) :=
  menu_push_scope_and_failure tKey false msgA true true uEsAdmin rfl

/-- C4: within one /start handling, the persistence step completes (its
session close included) strictly before the welcome reply, which is sent
strictly before any command-menu push: the trace splits at the welcome
reply, the session close lies in the prefix, no push precedes the reply,
no persistence effect follows it, and (when a bot handle is present) the
push occurs after it. -/
theorem start_persist_before_reply_before_menu (t : Tr) (adminId : Int)
    (now : Nat) (st : StorageOutcome) (pushOk : Bool) (message : Message)
    (u : User) (hu : message.from_user = some u) :
    ∃ pre post,
      command_start_handler t adminId now st pushOk message =
        pre ++ Effect.answer (t (classify u adminId).locale "start.instructions" [])
          "Markdown" (some true) :: post ∧
      pre.getLast? = some Effect.closeSession ∧
      (∀ e ∈ pre, e.isPush = false) ∧
      (∀ e ∈ post, e.isPersist = false) ∧
      (message.hasBot = true → ∃ cmds sc, Effect.setMyCommands cmds sc ∈ post) := by
  refine ⟨sessionBlock st (chatDataOf message now) (userDataOf u),
    update_user_commands t pushOk message (classify u adminId).is_admin
      (classify u adminId).is_premium, ?_, ?_, ?_, ?_, ?_⟩
  · simp [command_start_handler, hu]
  · exact sessionBlock_getLast_close st _ _
  · exact sessionBlock_no_push st _ _
  · exact update_no_persist t pushOk message _ _
  · intro hb
    exact ⟨_, _, update_push_mem t pushOk message _ _ u hu hb⟩

/-- Witness for C4 at a concrete message with failing storage. -/
theorem start_ordering_witness :
    ∃ pre post,
      command_start_handler tKey 7 0 stChatFail true msgA =
        pre ++ Effect.answer (tKey (classify uEsAdmin 7).locale "start.instructions" [])
          "Markdown" (some true) :: post ∧
      pre.getLast? = some Effect.closeSession ∧
      (∀ e ∈ pre, e.isPush = false) ∧
      (∀ e ∈ post, e.isPersist = false) ∧
      (msgA.hasBot = true → ∃ cmds sc, Effect.setMyCommands cmds sc ∈ post) :=
  start_persist_before_reply_before_menu tKey 7 0 stChatFail true msgA uEsAdmin rfl

/-- C2: a storage failure during /start is caught inside the session block
(it is logged there and the handler — a total function here — continues):
for every storage outcome the trace ends with the same welcome reply and
menu-update continuation as in the success case, and on a failing outcome
the exception log appears in the persistence prefix. -/
theorem start_failure_isolated (t : Tr) (adminId : Int) (now : Nat)
    (st : StorageOutcome) (pushOk : Bool) (message : Message) (u : User)
    (hu : message.from_user = some u) :
    ∃ pre,
      command_start_handler t adminId now st pushOk message =
        pre ++ ([Effect.answer (t (classify u adminId).locale "start.instructions" [])
            "Markdown" (some true)] ++
          update_user_commands t pushOk message (classify u adminId).is_admin
            (classify u adminId).is_premium) ∧
      pre.getLast? = some Effect.closeSession ∧
      ((st.chatCreateRaises = true ∨ st.saveUserRaises = true) →
        Effect.logException "Failed to save user on /start" ∈ pre) := by
  refine ⟨sessionBlock st (chatDataOf message now) (userDataOf u), ?_, ?_, ?_⟩
  · simp [command_start_handler, hu]
  · exact sessionBlock_getLast_close st _ _
  · exact sessionBlock_logs_on_raise st _ _

/-- Witness for C2 at a concrete message whose chat-create call raises. -/
theorem start_failure_isolated_witness :
    ∃ pre,
      command_start_handler tKey 7 0 stChatFail true msgA =
        pre ++ ([Effect.answer (tKey (classify uEsAdmin 7).locale "start.instructions" [])
            "Markdown" (some true)] ++
          update_user_commands tKey true msgA (classify uEsAdmin 7).is_admin
            (classify uEsAdmin 7).is_premium) ∧
      pre.getLast? = some Effect.closeSession ∧
      ((stChatFail.chatCreateRaises = true ∨ stChatFail.saveUserRaises = true) →
        Effect.logException "Failed to save user on /start" ∈ pre) :=
  start_failure_isolated tKey 7 0 stChatFail true msgA uEsAdmin rfl

theorem str_append_assoc (a b c : String) : a ++ b ++ c = a ++ (b ++ c) :=
  String.ext (by simp [String.data_append, List.append_assoc])

/-- Concrete translator marking each help section with a distinct letter. -/
def tSec : Tr := fun _ key _ =>
  if key = "help.header" then "H"
  else if key = "help.general" then "G"
  else if key = "help.premium" then "P"
  else if key = "help.admin" then "A"
  else ""

/-- C5: the help reply is a single message; its text is the localized
header and general section for every role, with the premium section
appended iff premium and the admin section appended iff admin; at the
marker translator an admin+premium sender gets each section exactly once,
in order. -/
theorem help_reply_sections :
    (∀ (t : Tr) (adminId : Int) (message : Message) (u : User),
      message.from_user = some u →
      command_help_handler t adminId message =
        [Effect.answer
          (help_text t (classify u adminId).locale (classify u adminId).is_admin
            (classify u adminId).is_premium) "Markdown" none]) ∧
    (∀ (t : Tr) (locale : String) (a p : Bool),
      help_text t locale a p =
        t locale "help.header" [] ++ "\n\n" ++
        t locale "help.general"
          [t locale "cmd.start" [], t locale "cmd.help" [], t locale "cmd.queue" [],
           t locale "cmd.profile" [], t locale "cmd.bugs" []] ++
        (if p then
          "\n" ++ t locale "help.premium"
            [t locale "cmd.monitor" [], t locale "cmd.unmonitor" []]
         else "") ++
        (if a then
          "\n" ++ t locale "help.admin"
            [t locale "cmd.users" [], t locale "cmd.history" [], t locale "cmd.block" [],
             t locale "cmd.unblock" [], t locale "cmd.blocklist" [],
             t locale "cmd.restart" [], t locale "cmd.status" [],
             t locale "cmd.listbugs" []]
         else "")) ∧
    (help_text tSec "en" true true = "H\n\nG\nP\nA" ∧
      "H\n\nG\nP\nA".data.count 'H' = 1 ∧ "H\n\nG\nP\nA".data.count 'G' = 1 ∧
      "H\n\nG\nP\nA".data.count 'P' = 1 ∧ "H\n\nG\nP\nA".data.count 'A' = 1) := by
  refine ⟨?_, ?_, ?_, ?_⟩
  · intro t adminId message u hu
    simp [command_help_handler, hu]
  · intro t locale a p
    cases a <;> cases p <;>
      simp [help_text, str_append_assoc, String.append_empty]
  · rfl
  · exact ⟨by decide, by decide, by decide, by decide⟩

/-- Witness for C5 at a concrete admin+premium message. -/
theorem help_reply_sections_witness :
    command_help_handler tSec 7 msgA =
      [Effect.answer
        (help_text tSec (classify uEsAdmin 7).locale (classify uEsAdmin 7).is_admin
          (classify uEsAdmin 7).is_premium) "Markdown" none] :=
  help_reply_sections.1 tSec 7 msgA uEsAdmin rfl

end Telestories
